import Mathlib

/-!
Verification development for the forge-server HTTP API.

The definitions below are a shallow embedding of the TypeScript sources:
`src/index.ts` (route handlers, rate limiter), `src/src/validation/schemas.ts`
(zod schemas) and `src/src/validation/middleware.ts` (`validateSchema`,
`validateContentType`), together with the envelope middleware
(`src/src/middleware/envelope.ts`).

Conventions of the embedding:
* JavaScript strings are modelled as Lean `String` (a wrapper around
  `List Char`); `.length`, `.slice`, `.startsWith`, `.endsWith`,
  `.toLowerCase` are modelled by explicit list operations (code points;
  all inputs relevant to the claims are within the BMP, where JS UTF-16
  lengths coincide with code-point counts).
* JSON request bodies are modelled by the inductive `Json`; an absent
  object key is `none` (JS `undefined`), JSON `null` is `Json.null`.
  JS numbers are modelled as rationals (`Rat`), which is faithful for
  every number zod's `.int()`/`.min`/`.max` checks can distinguish here.
* The zod validation pipeline is modelled by functions returning the list
  of issue messages in the order zod produces them (shape-key order;
  within a chained string/number, check order; object-level `.refine`
  issues last).  `validateSchema` surfaces `error.errors[0]` only.
* `res.envelope.success`/`res.envelope.error` responses are modelled by
  `Resp`; `envelope.error`'s default status code is 400.
* Routes are modelled for requests that already passed the
  `validateContentType` gate (Content-Type `application/json`), which is
  what every claim about these routes presupposes.
-/

namespace Forge

/-- JSON values as delivered by `express.json()`.  Numbers are rationals. -/
inductive Json where
  | null : Json
  | bool (b : Bool) : Json
  | num (q : Rat) : Json
  | str (s : String) : Json
  | arr (elems : List Json) : Json
  | obj (fields : List (String × Json)) : Json

/-- Property lookup on a JSON value: `body.k`.  Missing keys and lookups on
non-objects yield `none` (JS `undefined`). -/
def Json.getField : Json → String → Option Json
  | .obj fields, k => fields.lookup k
  | _, _ => none

/-- JavaScript truthiness of a JSON value (a string is truthy iff
non-empty). -/
def jsTruthy : Json → Bool
  | .null => false
  | .bool b => b
  | .num q => !(q == 0)
  | .str s => s != ""
  | .arr _ => true
  | .obj _ => true

/-- Truthiness of a possibly-absent value (`undefined` is falsy). -/
def jsTruthyOpt : Option Json → Bool
  | none => false
  | some j => jsTruthy j

/-- `typeof v === "string"`. -/
def isStr : Option Json → Bool
  | some (.str _) => true
  | _ => false

/-- `typeof v === "object"` (true for objects, arrays and `null`). -/
def isObjType : Option Json → Bool
  | some (.obj _) => true
  | some (.arr _) => true
  | some .null => true
  | _ => false

/-- The string content of a value known to be a JSON string. -/
def strVal : Option Json → String
  | some (.str s) => s
  | _ => ""

/-- Response envelope (`src/src/middleware/envelope.ts`): every API response
is either `ok: true` with data and message, or `ok: false` with a status
code, machine code and message (`envelope.error` defaults the status
to 400). -/
inductive Resp (α : Type) where
  | ok (status : Nat) (data : α) (message : String) : Resp α
  | err (status : Nat) (code : String) (message : String) : Resp α
  deriving DecidableEq

/-- Whether a response is a success envelope. -/
def Resp.isOk {α : Type} : Resp α → Bool
  | .ok _ _ _ => true
  | .err _ _ _ => false

/-! ## String helpers modelling the JavaScript string operations used -/

/-- `s.startsWith(p)`. -/
def jsStartsWith (s p : String) : Bool :=
  s.data.take p.data.length == p.data

/-- `s.endsWith(p)`. -/
def jsEndsWith (s p : String) : Bool :=
  s.data.reverse.take p.data.length == p.data.reverse

/-- `s.toLowerCase()` (ASCII range, which covers the extension allow-list). -/
def jsToLower (s : String) : String :=
  ⟨s.data.map Char.toLower⟩

/-- The characters matched by the regex class `\s` (ASCII subset; the inputs
of the claims contain no non-ASCII whitespace). -/
def isWs (c : Char) : Bool :=
  c == ' ' || c == '\t' || c == '\n' || c == '\r' ||
  c == Char.ofNat 11 || c == Char.ofNat 12

/-- `str.replace(/\s+/g, " ")`: each maximal run of whitespace becomes a
single space. -/
def collapseWs : List Char → List Char
  | [] => []
  | c :: cs =>
    if isWs c then ' ' :: collapseWs (cs.dropWhile isWs)
    else c :: collapseWs cs
termination_by l => l.length
decreasing_by
  · have hle : ∀ l : List Char, (l.dropWhile isWs).length ≤ l.length := by
      intro l
      induction l with
      | nil => simp [List.dropWhile]
      | cons a as ih =>
        by_cases h : isWs a
        · simp only [List.dropWhile, h]
          exact Nat.le_succ_of_le ih
        · simp [List.dropWhile, h]
    exact Nat.lt_succ_of_le (hle cs)
  · simp

/-- `str.trim()`: strip whitespace from both ends. -/
def trimWs (l : List Char) : List Char :=
  ((l.dropWhile isWs).reverse.dropWhile isWs).reverse

/-! ## Captions endpoint (`POST /api/captions`, src/index.ts lines 122-146,
schema in src/src/validation/schemas.ts lines 4-27) -/

/-- The generated caption triple (`data.captions` of the success envelope). -/
structure CaptionsOut where
  tweet : List Char
  instagram : List Char
  youtube : List Char
  deriving DecidableEq

/-- The truncation bound `Math.max(20, Math.min(maxLen, 180))` used by the
captions handler. -/
def sliceBound (maxLen : Int) : Int :=
  max 20 (min maxLen 180)

/-- The `base` string of the captions handler:
`transcript.slice(0, Math.max(20, Math.min(maxLen, 180))).replace(/\s+/g, " ").trim()`.
(`slice(0, n)` with the positive bound `n` is `take n`.) -/
def captionsBase (transcript : List Char) (maxLen : Int) : List Char :=
  trimWs (collapseWs (transcript.take (sliceBound maxLen).toNat))

/-- The captions route handler body (src/index.ts lines 127-145).  It
destructures `tone` from the body but never uses it. -/
def captionsHandler (transcript : List Char) (tone : String) (maxLen : Int) :
    CaptionsOut :=
  let base := captionsBase transcript maxLen
  { tweet := "MOCK: ".data ++ base ++ (if base.length > 0 then ['.'] else [])
    instagram := "MOCK: ".data ++ base ++ " #forge #creators".data
    youtube := "MOCK: ".data ++ base ++ " — generated with Forge".data }

/-- zod issues of the `transcript` field of `captionsSchema`:
`z.string().min(1).max(10000).refine(trim nonempty)`.  A missing key or a
non-string aborts with a single invalid-type issue; otherwise the chained
checks run in order and the refinement runs last (zod executes refinements
also on `dirty` results). -/
def transcriptIssues : Option Json → List String
  | none => ["Required"]
  | some (.str s) =>
    (if s.length < 1 then
      ["transcript is required and must be a non-empty string"] else []) ++
    (if s.length > 10000 then
      ["transcript is too long (max 10,000 characters)"] else []) ++
    (if (trimWs s.data).length = 0 then
      ["transcript cannot be empty or only whitespace"] else [])
  | some _ => ["Expected string, received other type"]

/-- The four legal tone values of `captionsSchema.tone`. -/
def toneValues : List String := ["default", "professional", "casual", "funny"]

/-- zod issues of the `tone` field: optional enum with a custom error map
that maps every issue to one fixed message; absent means defaulted. -/
def toneIssues : Option Json → List String
  | none => []
  | some (.str s) =>
    if toneValues.contains s then []
    else ["tone must be one of: default, professional, casual, funny"]
  | some _ => ["tone must be one of: default, professional, casual, funny"]

/-- zod issues of the `maxLen` field:
`z.number().int().min(10).max(500).optional().default(120)`.  A non-number
aborts with one invalid-type issue; the numeric checks accumulate in chain
order. -/
def maxLenIssues : Option Json → List String
  | none => []
  | some (.num q) =>
    (if !q.isInt then ["maxLen must be an integer"] else []) ++
    (if q < 10 then ["maxLen must be at least 10"] else []) ++
    (if q > 500 then ["maxLen must be at most 500"] else [])
  | some _ => ["Expected number, received other type"]

/-- All issues of `captionsSchema.parse(body)`, in zod's order (shape-key
order `transcript`, `tone`, `maxLen`; a non-object body yields one
invalid-type issue). -/
def captionsIssues : Json → List String
  | .obj fields =>
    transcriptIssues ((Json.obj fields).getField "transcript") ++
    toneIssues ((Json.obj fields).getField "tone") ++
    maxLenIssues ((Json.obj fields).getField "maxLen")
  | _ => ["Expected object, received other type"]

/-- Whether a raw `maxLen` value violates `captionsSchema.maxLen`: present
and not a number (numeric strings included), not an integer, or outside
`[10, 500]`. -/
def maxLenBad : Option Json → Bool
  | none => false
  | some (.num q) => !q.isInt || q < 10 || q > 500
  | some _ => true

/-- The `POST /api/captions` route after the `validateContentType` gate:
`validateSchema(captionsSchema)` rejects with the FIRST zod issue
(`error.errors[0]`) as a 400 `VALIDATION_ERROR`; otherwise the handler runs
on the parsed-and-defaulted body. -/
def captionsRoute (body : Json) : Resp CaptionsOut :=
  match captionsIssues body with
  | [] =>
    -- on an issue-free body these extractions coincide with zod's
    -- parsed output (defaults "default" and 120 for absent fields)
    let transcript := (strVal (body.getField "transcript")).data
    let tone := match body.getField "tone" with
      | some (.str s) => s
      | _ => "default"
    let maxLen : Int := match body.getField "maxLen" with
      | some (.num q) => q.num
      | _ => 120
    .ok 200 (captionsHandler transcript tone maxLen)
      "Captions generated successfully"
  | m :: _ => .err 400 "VALIDATION_ERROR" m

/-! ## Transcribe endpoint (`POST /api/transcribe`, src/index.ts lines
148-210).  The uploaded file is consumed as a capability: name, size,
MIME type. -/

/-- The multer file object fields the handler reads. -/
structure UploadedFile where
  originalname : String
  size : Nat
  mimetype : String
  deriving DecidableEq

/-- Success payload of the transcribe route (mock transcript plus file
metadata echo). -/
structure TranscribeOut where
  language : String
  text : String
  originalName : String
  size : Nat
  mimeType : String
  deriving DecidableEq

/-- `allowedTypes.some(t => req.file.mimetype.startsWith(t))`. -/
def isValidType (f : UploadedFile) : Bool :=
  ["audio/", "video/", "application/octet-stream"].any
    (fun t => jsStartsWith f.mimetype t)

/-- `allowedExtensions.some(e => req.file.originalname.toLowerCase().endsWith(e))`. -/
def hasValidExtension (f : UploadedFile) : Bool :=
  [".mp3", ".wav", ".mp4", ".mov", ".avi", ".mkv", ".m4a", ".aac"].any
    (fun e => jsEndsWith (jsToLower f.originalname) e)

/-- The `POST /api/transcribe` route handler: missing-file check, then
type/extension check, then emptiness check, then mock success. -/
def transcribeRoute (file : Option UploadedFile) : Resp TranscribeOut :=
  match file with
  | none => .err 400 "MISSING_FILE" "No file provided. Please upload a file."
  | some f =>
    if !isValidType f && !hasValidExtension f then
      .err 400 "INVALID_FILE_TYPE"
        ("Invalid file type. Please upload an audio or video file. Detected MIME type: "
          ++ f.mimetype)
    else if f.size == 0 then
      .err 400 "EMPTY_FILE" "File is empty"
    else
      .ok 200
        { language := "en"
          text := "This is a mock transcript produced by Forge mock server."
          originalName := f.originalname
          size := f.size
          mimeType := f.mimetype }
        "Transcription completed successfully"

/-! ## Log endpoint (`POST /api/log`, src/index.ts lines 212-298). -/

/-- Error codes the spec's endpoint table lists for `POST /api/log`. -/
def logClaimCodes : List String :=
  ["INVALID_TS", "INVALID_LEVEL", "INVALID_EVENT", "INVALID_USER_ANON_ID",
   "INVALID_PAYLOAD", "FIELD_TOO_LONG"]

/-- The valid log levels. -/
def validLevels : List String := ["debug", "info", "warn", "error"]

/-- The `POST /api/log` route handler, with the checks in source order.
`tsParseOk` abstracts whether `new Date(ts).toISOString()` succeeds for the
`ts` string (JS date parsing is consumed as a capability). -/
def logRoute (body : Json) (tsParseOk : Bool) : Resp Unit :=
  let ts := body.getField "ts"
  let level := body.getField "level"
  let event := body.getField "event"
  let userAnonId := body.getField "userAnonId"
  let payload := body.getField "payload"
  if !(jsTruthyOpt ts && isStr ts) then
    .err 400 "INVALID_TS"
      "Missing or invalid required field: ts (must be ISO timestamp string)"
  else if !(jsTruthyOpt level && isStr level) then
    .err 400 "INVALID_LEVEL"
      "Missing or invalid required field: level (must be a string)"
  else if !(jsTruthyOpt event && isStr event) then
    .err 400 "INVALID_EVENT"
      "Missing or invalid required field: event (must be a string)"
  else if !(jsTruthyOpt userAnonId && isStr userAnonId) then
    .err 400 "INVALID_USER_ANON_ID"
      "Missing or invalid required field: userAnonId (must be a string)"
  else if jsTruthyOpt payload && !isObjType payload then
    .err 400 "INVALID_PAYLOAD" "payload field must be an object"
  else if !tsParseOk then
    .err 400 "INVALID_TIMESTAMP" "ts field must be a valid ISO timestamp string"
  else if !(validLevels.contains (strVal level)) then
    .err 400 "INVALID_LOG_LEVEL" "level must be one of: debug, info, warn, error"
  else if (strVal event).length > 100 then
    .err 400 "FIELD_TOO_LONG" "event field is too long (max 100 characters)"
  else if (strVal userAnonId).length > 100 then
    .err 400 "FIELD_TOO_LONG" "userAnonId field is too long (max 100 characters)"
  else
    .ok 200 () "Log entry recorded successfully"

/-! ## ExportZip endpoint (`POST /api/exportZip`, src/index.ts lines 300-368,
schema in src/src/validation/schemas.ts lines 29-71).

The request body is modelled after JSON typing: each named field is an
optional string, `captions` an optional string-to-string record (an
association list in JS object key order).  The ZIP archive is consumed as a
capability: the list of `zip.append(content, {name})` calls, in order. -/

/-- A well-typed `exportZip` request body. -/
structure ExportBody where
  transcript : Option String
  tweet : Option String
  instagram : Option String
  youtube : Option String
  captions : Option (List (String × String))

/-- JS truthiness of an optional string field (absent or `""` is falsy). -/
def optTruthy : Option String → Bool
  | none => false
  | some s => s != ""

/-- zod issue list of one optional bounded string field. -/
def optStrTooLong (v : Option String) (bound : Nat) (msg : String) :
    List String :=
  match v with
  | none => []
  | some s => if s.length > bound then [msg] else []

/-- The object-level `.refine` predicate of `exportZipSchema`:
`transcript || tweet || instagram || youtube ||
(captions && Object.keys(captions).length > 0)`. -/
def exportHasContent (b : ExportBody) : Bool :=
  optTruthy b.transcript || optTruthy b.tweet || optTruthy b.instagram ||
  optTruthy b.youtube ||
  (match b.captions with
   | none => false
   | some kvs => decide (0 < kvs.length))

/-- All issues of `exportZipSchema.parse`, in zod's order: per-field length
checks in shape order, the `captions` record's per-value checks, then the
object-level `.refine` (which zod also runs on dirty results). -/
def exportZipIssues (b : ExportBody) : List String :=
  optStrTooLong b.transcript 50000 "transcript is too long (max 50,000 characters)" ++
  optStrTooLong b.tweet 10000 "tweet is too long (max 10,000 characters)" ++
  optStrTooLong b.instagram 10000 "instagram is too long (max 10,000 characters)" ++
  optStrTooLong b.youtube 10000 "youtube is too long (max 10,000 characters)" ++
  ((b.captions.getD []).filter (fun kv => kv.2.length > 10000)).map
    (fun _ => "caption value is too long (max 10,000 characters)") ++
  (if exportHasContent b then [] else ["At least one content field is required"])

/-- The `zip.append` calls of the handler, in order: one `(name, content)`
pair per truthy named field, then one per truthy string value of the
`captions` record. -/
def exportEntries (b : ExportBody) : List (String × String) :=
  (if optTruthy b.transcript then [("transcript.txt", b.transcript.getD "")] else []) ++
  (if optTruthy b.tweet then [("tweet.txt", b.tweet.getD "")] else []) ++
  (if optTruthy b.instagram then [("instagram.txt", b.instagram.getD "")] else []) ++
  (if optTruthy b.youtube then [("youtube.txt", b.youtube.getD "")] else []) ++
  (b.captions.getD []).filterMap
    (fun kv => if kv.2 != "" then some (kv.1 ++ ".txt", kv.2) else none)

/-- The `files` array pushed alongside the `zip.append` calls. -/
def exportFiles (b : ExportBody) : List String :=
  (if optTruthy b.transcript then ["transcript.txt"] else []) ++
  (if optTruthy b.tweet then ["tweet.txt"] else []) ++
  (if optTruthy b.instagram then ["instagram.txt"] else []) ++
  (if optTruthy b.youtube then ["youtube.txt"] else []) ++
  (b.captions.getD []).filterMap
    (fun kv => if kv.2 != "" then some (kv.1 ++ ".txt") else none)

/-- Success payload of the exportZip route: the `files` listing and the
archive (as its named text entries). -/
structure ExportOut where
  files : List String
  entries : List (String × String)
  deriving DecidableEq

/-- The `POST /api/exportZip` route after the `validateContentType` gate:
`validateSchema(exportZipSchema)` rejects with the first zod issue as a 400
`VALIDATION_ERROR`; otherwise the handler builds the archive and answers
with the success envelope. -/
def exportZipRoute (b : ExportBody) : Resp ExportOut :=
  match exportZipIssues b with
  | [] => .ok 200 { files := exportFiles b, entries := exportEntries b }
      "ZIP file generated successfully"
  | m :: _ => .err 400 "VALIDATION_ERROR" m

/-- Deterministic file names as the spec states them: `transcript.txt`,
`tweet.txt`, `instagram.txt`, `youtube.txt` for the fixed fields and
`<key>.txt` for each custom caption key with a non-empty value. -/
def specExportFiles (b : ExportBody) : List String :=
  (if optTruthy b.transcript then ["transcript.txt"] else []) ++
  (if optTruthy b.tweet then ["tweet.txt"] else []) ++
  (if optTruthy b.instagram then ["instagram.txt"] else []) ++
  (if optTruthy b.youtube then ["youtube.txt"] else []) ++
  ((b.captions.getD []).filter (fun kv => kv.2 != "")).map
    (fun kv => kv.1 ++ ".txt")

/-- Number of non-empty named fields of an export request. -/
def countNamed (b : ExportBody) : Nat :=
  (if optTruthy b.transcript then 1 else 0) +
  (if optTruthy b.tweet then 1 else 0) +
  (if optTruthy b.instagram then 1 else 0) +
  (if optTruthy b.youtube then 1 else 0)

/-- Number of non-empty string values in the `captions` record. -/
def countCaptions (b : ExportBody) : Nat :=
  ((b.captions.getD []).filter (fun kv => kv.2 != "")).length

/-! ## Rate limiter (src/index.ts lines 30-62). -/

/-- One client's entry in `rateLimitStore`. -/
structure RLRecord where
  count : Nat
  resetTime : Nat
  deriving DecidableEq

/-- The window length in milliseconds (`windowMs`). -/
def rlWindowMs : Nat := 60000

/-- The per-window request limit (`maxRequests`). -/
def rlMax : Nat := 100

/-- Outcome of the rate limiter middleware for one request. -/
inductive RLOutcome where
  | allow : RLOutcome
  | reject (status : Nat) (code : String) (retryAfter : Nat) : RLOutcome
  deriving DecidableEq

/-- `rateLimitStore.set(key, r)`. -/
def rlUpdate (store : String → Option RLRecord) (key : String) (r : RLRecord) :
    String → Option RLRecord :=
  fun k => if k = key then some r else store k

/-- One pass through the `rateLimiter` middleware for client `client` at
time `now` (milliseconds).  `retryAfter` is
`Math.ceil((record.resetTime - now) / 1000)`; in the rejecting branch
`now ≤ resetTime`, so the ceiling is `(resetTime - now + 999) / 1000` over
`Nat`. -/
def rlStep (store : String → Option RLRecord) (client : String) (now : Nat) :
    (String → Option RLRecord) × RLOutcome :=
  match store client with
  | none => (rlUpdate store client ⟨1, now + rlWindowMs⟩, .allow)
  | some r =>
    if r.resetTime < now then
      (rlUpdate store client ⟨1, now + rlWindowMs⟩, .allow)
    else if rlMax ≤ r.count then
      (store, .reject 429 "RATE_LIMIT_EXCEEDED" ((r.resetTime - now + 999) / 1000))
    else
      (rlUpdate store client ⟨r.count + 1, r.resetTime⟩, .allow)

/-- Run the rate limiter over a sequence of request times from one client,
returning the final store and the per-request outcomes. -/
def rlRun (store : String → Option RLRecord) (client : String) :
    List Nat → (String → Option RLRecord) × List RLOutcome
  | [] => (store, [])
  | t :: ts =>
    let p := rlStep store client t
    let q := rlRun p.1 client ts
    (q.1, p.2 :: q.2)

/-! ## Concrete request bodies used by individual claims -/

/-- A captions body violating two rules at once: the transcript is the
empty string (min-length and whitespace-refine both fail). -/
def c9CapBody : Json := Json.obj [("transcript", Json.str "")]

/-- An export body violating two rules at once: two caption values of
10,001 characters. -/
def c9ExpBody : ExportBody :=
  ExportBody.mk none none none none
    (some [("a", (List.replicate 10001 'x').asString),
           ("b", (List.replicate 10001 'x').asString)])

/-- A log body whose only flaw is a non-enum `level`. -/
def c4Body : Json :=
  Json.obj [("ts", Json.str "2024-01-01T00:00:00.000Z"),
            ("level", Json.str "fatal"),
            ("event", Json.str "e"),
            ("userAnonId", Json.str "u")]

/-- An otherwise-valid log body whose `event` has 101 characters. -/
def c4LongEventBody : Json :=
  Json.obj [("ts", Json.str "2024-01-01T00:00:00.000Z"),
            ("level", Json.str "info"),
            ("event", Json.str (List.replicate 101 'x').asString),
            ("userAnonId", Json.str "u")]

/-! ## Theorems -/

/-- Claim C1: for every valid captions request (transcript 1-10000 chars,
not whitespace-only, integer `maxLen` in `[10,500]`), the truncation bound
applied to the transcript is `clamp(maxLen, 20, 180) = max(20, min(maxLen,
180))` — a function of `maxLen` alone, always inside `[20,180]` — the
embedded slice is the truncated transcript with whitespace runs collapsed
to single spaces and trimmed, and all three outputs extend the common
watermark-prefixed core `"MOCK: " ++ slice`. -/
theorem captions_slice_clamp_watermark (t : List Char) (tone : String)
    (maxLen : Int) (h₁ : 1 ≤ t.length) (h₂ : t.length ≤ 10000)
    (h₃ : 0 < (trimWs t).length) (h₄ : 10 ≤ maxLen) (h₅ : maxLen ≤ 500) :
    sliceBound maxLen = max 20 (min maxLen 180) ∧
    20 ≤ sliceBound maxLen ∧ sliceBound maxLen ≤ 180 ∧
    captionsBase t maxLen =
      trimWs (collapseWs (t.take (sliceBound maxLen).toNat)) ∧
    ∃ s₁ s₂ s₃,
      (captionsHandler t tone maxLen).tweet =
        ("MOCK: ".data ++ captionsBase t maxLen) ++ s₁ ∧
      (captionsHandler t tone maxLen).instagram =
        ("MOCK: ".data ++ captionsBase t maxLen) ++ s₂ ∧
      (captionsHandler t tone maxLen).youtube =
        ("MOCK: ".data ++ captionsBase t maxLen) ++ s₃ := by
  exact ⟨rfl, le_max_left _ _, max_le (by norm_num) (min_le_right _ _), rfl,
    _, _, _, rfl, rfl, rfl⟩

/-- Witness for C1 at transcript `"hello world"`, tone `"professional"`,
`maxLen = 50`. -/
theorem captions_slice_clamp_watermark_witness :
    1 ≤ "hello world".data.length ∧ "hello world".data.length ≤ 10000 ∧
    0 < (trimWs "hello world".data).length ∧
    (sliceBound 50 = max 20 (min 50 180) ∧
     20 ≤ sliceBound 50 ∧ sliceBound 50 ≤ 180 ∧
     captionsBase "hello world".data 50 =
       trimWs (collapseWs ("hello world".data.take (sliceBound 50).toNat)) ∧
     ∃ s₁ s₂ s₃,
       (captionsHandler "hello world".data "professional" 50).tweet =
         ("MOCK: ".data ++ captionsBase "hello world".data 50) ++ s₁ ∧
       (captionsHandler "hello world".data "professional" 50).instagram =
         ("MOCK: ".data ++ captionsBase "hello world".data 50) ++ s₂ ∧
       (captionsHandler "hello world".data "professional" 50).youtube =
         ("MOCK: ".data ++ captionsBase "hello world".data 50) ++ s₃) :=
  ⟨by decide, by decide, by decide,
   captions_slice_clamp_watermark "hello world".data "professional" 50
     (by decide) (by decide) (by decide) (by decide) (by decide)⟩

/-- Claim C2: two captions requests that differ only in `tone` produce
identical outputs — in particular the embedded slice is identical across
tones, and the template chosen for each tone is fixed (the handler is a
pure function that never reads `tone`, so its only possible effect is the
— here constant — template choice, never the slice logic). -/
theorem captions_tone_independent (t : List Char) (maxLen : Int)
    (tone₁ tone₂ : String) :
    captionsHandler t tone₁ maxLen = captionsHandler t tone₂ maxLen := rfl

/-- Claim C6: a transcribe request with an attached file succeeds iff the
file size is positive and the lowercased filename has an allow-listed
extension or the MIME type has an allow-listed prefix. -/
theorem transcribe_accept_iff (f : UploadedFile) :
    (transcribeRoute (some f)).isOk = true ↔
      0 < f.size ∧ (hasValidExtension f = true ∨ isValidType f = true) := by
  cases hT : isValidType f <;> cases hE : hasValidExtension f <;>
    cases hs : f.size <;>
      simp [transcribeRoute, Resp.isOk, hT, hE, hs]

/-- Claim C10: the type/extension check of the transcribe route runs before
the emptiness check: an empty file failing both allow-lists is rejected
with `INVALID_FILE_TYPE`, and an `EMPTY_FILE` rejection happens only for
empty files that passed an allow-list. -/
theorem transcribe_type_before_empty :
    (∀ f : UploadedFile, f.size = 0 → isValidType f = false →
      hasValidExtension f = false →
      transcribeRoute (some f) =
        .err 400 "INVALID_FILE_TYPE"
          ("Invalid file type. Please upload an audio or video file. Detected MIME type: "
            ++ f.mimetype)) ∧
    (∀ (f : UploadedFile) (s : Nat) (m : String),
      transcribeRoute (some f) = .err s "EMPTY_FILE" m →
      (isValidType f = true ∨ hasValidExtension f = true) ∧ f.size = 0) := by
  constructor
  · intro f _ hT hE
    simp [transcribeRoute, hT, hE]
  · intro f s m h
    cases hT : isValidType f <;> cases hE : hasValidExtension f <;>
      cases hs : f.size <;>
        simp [transcribeRoute, hT, hE, hs] at h <;> simp_all

/-- Witness for C10: an empty `.txt`/`text/plain` file is rejected as
`INVALID_FILE_TYPE`, and an empty `.mp3` file yields `EMPTY_FILE` with an
allow-listed extension. -/
theorem transcribe_type_before_empty_witness :
    transcribeRoute (some ⟨"notes.txt", 0, "text/plain"⟩) =
      .err 400 "INVALID_FILE_TYPE"
        ("Invalid file type. Please upload an audio or video file. Detected MIME type: "
          ++ "text/plain") ∧
    ((isValidType ⟨"a.mp3", 0, "text/plain"⟩ = true ∨
      hasValidExtension ⟨"a.mp3", 0, "text/plain"⟩ = true) ∧
     (⟨"a.mp3", 0, "text/plain"⟩ : UploadedFile).size = 0) :=
  ⟨transcribe_type_before_empty.1 ⟨"notes.txt", 0, "text/plain"⟩ rfl
     (by decide) (by decide),
   transcribe_type_before_empty.2 ⟨"a.mp3", 0, "text/plain"⟩ 400 "File is empty"
     (by decide)⟩

/-- The one-pass guarded collection of `<key>.txt` names equals filtering
the non-empty values then renaming. -/
theorem filterMap_txt_names (l : List (String × String)) :
    l.filterMap (fun kv => if kv.2 != "" then some (kv.1 ++ ".txt") else none) =
      (l.filter (fun kv => kv.2 != "")).map (fun kv => kv.1 ++ ".txt") := by
  induction l with
  | nil => rfl
  | cons a l ih =>
    by_cases h : a.2 = "" <;>
      simpa [List.filterMap_cons, List.filter_cons, h] using ih

/-- Claim C7: the exportZip handler produces exactly one archive entry per
non-empty content field, with the deterministic names the spec lists
(`transcript.txt` … `<key>.txt`), the returned `files` listing equals the
archive's entry names, and its length is the number of non-empty named
fields plus the number of non-empty caption values. -/
theorem exportZip_entries_deterministic (b : ExportBody) :
    exportFiles b = specExportFiles b ∧
    (exportEntries b).map Prod.fst = exportFiles b ∧
    (exportFiles b).length = countNamed b + countCaptions b ∧
    (exportEntries b).length = countNamed b + countCaptions b := by
  have hfm : exportFiles b = specExportFiles b := by
    unfold exportFiles specExportFiles
    rw [filterMap_txt_names]
  have hmap : (exportEntries b).map Prod.fst = exportFiles b := by
    simp only [exportEntries, exportFiles, List.map_append, List.map_filterMap]
    congr 1
    · congr 1
      · congr 1
        · congr 1 <;> split <;> simp
        · split <;> simp
      · split <;> simp
    · congr 1
      funext kv
      split <;> simp
  have hlen : (exportFiles b).length = countNamed b + countCaptions b := by
    rw [hfm]
    simp only [specExportFiles, countNamed, countCaptions, List.length_append,
      List.length_map]
    split <;> split <;> split <;> split <;> simp
  refine ⟨hfm, hmap, hlen, ?_⟩
  have h := congrArg List.length hmap
  rw [List.length_map] at h
  rw [h, hlen]

/-- Claim C3 counterexample: the request whose only content is
`captions = {"a": ""}` has no non-empty content field, yet it passes
`exportZipSchema` (the refine only counts keys) and the route answers with
a ZIP success envelope containing zero files — not a `VALIDATION_ERROR`. -/
theorem exportZip_emptyvalue_zip_counterexample :
    (optTruthy (ExportBody.mk none none none none (some [("a", "")])).transcript = false ∧
     optTruthy (ExportBody.mk none none none none (some [("a", "")])).tweet = false ∧
     optTruthy (ExportBody.mk none none none none (some [("a", "")])).instagram = false ∧
     optTruthy (ExportBody.mk none none none none (some [("a", "")])).youtube = false ∧
     ((ExportBody.mk none none none none (some [("a", "")])).captions.getD []).all
       (fun kv => kv.2 == "") = true) ∧
    exportZipRoute (ExportBody.mk none none none none (some [("a", "")])) =
      .ok 200 { files := [], entries := [] } "ZIP file generated successfully" := by
  constructor
  · exact ⟨rfl, rfl, rfl, rfl, by decide⟩
  · rfl

/-- Claim C3 as amended: a request whose named fields are all absent or
empty and whose `captions` map is absent or has no keys is rejected with a
400 `VALIDATION_ERROR`; conversely a ZIP success requires the schema's
content condition (some named field non-empty, or the captions map having
at least one key — even if all its values are empty). -/
theorem exportZip_validation_amended (b : ExportBody)
    (h₁ : optTruthy b.transcript = false) (h₂ : optTruthy b.tweet = false)
    (h₃ : optTruthy b.instagram = false) (h₄ : optTruthy b.youtube = false)
    (h₅ : b.captions.getD [] = []) :
    exportZipRoute b =
      .err 400 "VALIDATION_ERROR" "At least one content field is required" ∧
    (∀ b' : ExportBody, (exportZipRoute b').isOk = true →
      exportHasContent b' = true) := by
  constructor
  · have hT : ∀ (v : Option String) (n : Nat) (msg : String),
        optTruthy v = false → optStrTooLong v n msg = [] := by
      intro v n msg hv
      cases v with
      | none => rfl
      | some s =>
        have : s = "" := by simpa [optTruthy] using hv
        simp [optStrTooLong, this]
    have hC : exportHasContent b = false := by
      simp only [exportHasContent, h₁, h₂, h₃, h₄, Bool.false_or]
      cases hc : b.captions with
      | none => rfl
      | some kvs =>
        have : kvs = [] := by simpa [hc] using h₅
        simp [this]
    have hI : exportZipIssues b =
        ["At least one content field is required"] := by
      simp [exportZipIssues, hT _ _ _ h₁, hT _ _ _ h₂, hT _ _ _ h₃,
        hT _ _ _ h₄, h₅, hC]
    simp [exportZipRoute, hI]
  · intro b' h
    rw [exportZipRoute] at h
    cases hI : exportZipIssues b' with
    | cons m rest => simp [hI, Resp.isOk] at h
    | nil =>
      by_cases hc : exportHasContent b' = true
      · exact hc
      · exfalso
        have : exportZipIssues b' ≠ [] := by
          simp only [exportZipIssues, Bool.not_eq_true] at hc ⊢
          simp [hc]
        exact this hI

/-- Witness for C3's amended theorem: the all-absent body is rejected, and
a body with a non-empty transcript satisfies the content condition. -/
theorem exportZip_validation_amended_witness :
    exportZipRoute (ExportBody.mk none none none none none) =
      .err 400 "VALIDATION_ERROR" "At least one content field is required" ∧
    exportHasContent (ExportBody.mk (some "hi") none none none none) = true :=
  ⟨(exportZip_validation_amended (ExportBody.mk none none none none none)
      rfl rfl rfl rfl rfl).1,
   (exportZip_validation_amended (ExportBody.mk none none none none none)
      rfl rfl rfl rfl rfl).2
     (ExportBody.mk (some "hi") none none none none) (by decide)⟩

/-- A bad `maxLen` value always contributes at least one zod issue. -/
theorem maxLenIssues_ne_nil (v : Option Json) (h : maxLenBad v = true) :
    maxLenIssues v ≠ [] := by
  cases v with
  | none => simp [maxLenBad] at h
  | some j =>
    cases j with
    | num q =>
      by_cases hI : q.isInt = true
      · by_cases h10 : q < 10
        · simp [maxLenIssues, h10]
        · have h500 : q > 500 := by
            simpa [maxLenBad, hI, h10] using h
          simp [maxLenIssues, h500]
      · simp [maxLenIssues, hI]
    | null => simp [maxLenIssues]
    | bool b => simp [maxLenIssues]
    | str s => simp [maxLenIssues]
    | arr es => simp [maxLenIssues]
    | obj fs => simp [maxLenIssues]

/-- Claim C8: a captions request whose `maxLen` is present and not a number
(numeric strings included), not an integer, or outside `[10,500]` is
rejected with a 400 `VALIDATION_ERROR` by the validation middleware; the
route handler never produces captions for it. -/
theorem captions_maxLen_rejected (body : Json)
    (h : maxLenBad (body.getField "maxLen") = true) :
    ∃ m, captionsRoute body = .err 400 "VALIDATION_ERROR" m := by
  have hne : captionsIssues body ≠ [] := by
    cases body with
    | obj fields =>
      have hm := maxLenIssues_ne_nil _ h
      intro hnil
      rw [captionsIssues] at hnil
      rcases List.append_eq_nil.mp hnil with ⟨hnil1, hnil2⟩
      rcases List.append_eq_nil.mp hnil1 with ⟨_, _⟩
      exact hm hnil2
    | null => simp [Json.getField, maxLenBad] at h
    | bool b => simp [Json.getField, maxLenBad] at h
    | num q => simp [Json.getField, maxLenBad] at h
    | str s => simp [Json.getField, maxLenBad] at h
    | arr es => simp [Json.getField, maxLenBad] at h
  cases hI : captionsIssues body with
  | nil => exact absurd hI hne
  | cons m rest => exact ⟨m, by simp [captionsRoute, hI]⟩

/-- Witness for C8: `maxLen` given as the numeric string `"50"` is rejected
with a `VALIDATION_ERROR`. -/
theorem captions_maxLen_rejected_witness :
    maxLenBad
      ((Json.obj [("transcript", Json.str "hello"), ("maxLen", Json.str "50")]).getField
        "maxLen") = true ∧
    ∃ m, captionsRoute
        (Json.obj [("transcript", Json.str "hello"), ("maxLen", Json.str "50")]) =
      .err 400 "VALIDATION_ERROR" m :=
  ⟨by decide,
   captions_maxLen_rejected
     (Json.obj [("transcript", Json.str "hello"), ("maxLen", Json.str "50")])
     (by decide)⟩

/-- Claim C9: a request to a schema-validated endpoint (captions or
exportZip) that violates more than one validation rule is answered with a
single 400 `VALIDATION_ERROR` carrying exactly the first issue's message;
the remaining issues are never surfaced. -/
theorem validation_first_error_only (body : Json) (b : ExportBody)
    (h₁ : 2 ≤ (captionsIssues body).length)
    (h₂ : 2 ≤ (exportZipIssues b).length) :
    (∃ m rest, captionsIssues body = m :: rest ∧
      captionsRoute body = .err 400 "VALIDATION_ERROR" m) ∧
    (∃ m rest, exportZipIssues b = m :: rest ∧
      exportZipRoute b = .err 400 "VALIDATION_ERROR" m) := by
  constructor
  · cases hI : captionsIssues body with
    | nil => rw [hI] at h₁; simp at h₁
    | cons m rest => exact ⟨m, rest, rfl, by simp [captionsRoute, hI]⟩
  · cases hI : exportZipIssues b with
    | nil => rw [hI] at h₂; simp at h₂
    | cons m rest => exact ⟨m, rest, rfl, by simp [exportZipRoute, hI]⟩

/-- Witness for C9: a captions body with an empty transcript (two violated
rules: min length and the whitespace refine) and an export body with two
over-long caption values each get the single first error. -/
theorem validation_first_error_only_witness :
    2 ≤ (captionsIssues c9CapBody).length ∧
    2 ≤ (exportZipIssues c9ExpBody).length ∧
    ((∃ m rest, captionsIssues c9CapBody = m :: rest ∧
        captionsRoute c9CapBody = .err 400 "VALIDATION_ERROR" m) ∧
     (∃ m rest, exportZipIssues c9ExpBody = m :: rest ∧
        exportZipRoute c9ExpBody = .err 400 "VALIDATION_ERROR" m)) := by
  have h₁ : 2 ≤ (captionsIssues c9CapBody).length := by decide
  have hlen : 10000 < (List.replicate 10001 'x').asString.length := by
    rw [List.length_asString, List.length_replicate]
    norm_num
  have h₂ : 2 ≤ (exportZipIssues c9ExpBody).length := by
    simp only [c9ExpBody, exportZipIssues, optStrTooLong, Option.getD_some,
      List.filter_cons, List.filter_nil, exportHasContent, optTruthy,
      List.length_append, List.length_nil, decide_eq_true hlen, if_true,
      List.length_cons, List.length_map, List.filter]
    omega
  exact ⟨h₁, h₂, validation_first_error_only c9CapBody c9ExpBody h₁ h₂⟩

/-- Claim C4 counterexample: a log request whose `level` is `"fatal"` (all
other fields valid) fails validation with HTTP 400 but code
`INVALID_LOG_LEVEL`, which is not in the claimed code set. -/
theorem log_codes_counterexample :
    logRoute c4Body true =
      .err 400 "INVALID_LOG_LEVEL"
        "level must be one of: debug, info, warn, error" ∧
    logClaimCodes.contains "INVALID_LOG_LEVEL" = false := by
  constructor
  · rfl
  · decide

/-- Claim C4 as amended: every validation failure of `POST /api/log` returns
HTTP 400 with a code from the claimed set EXTENDED BY `INVALID_TIMESTAMP`
(unparsable `ts` strings) and `INVALID_LOG_LEVEL` (non-enum `level`
strings); and an otherwise-valid request whose `event` exceeds 100
characters is rejected 400 `FIELD_TOO_LONG`. -/
theorem log_codes_amended :
    (∀ (body : Json) (tsOk : Bool) (s : Nat) (c m : String),
      logRoute body tsOk = .err s c m →
      s = 400 ∧ (c ∈ logClaimCodes ∨ c = "INVALID_TIMESTAMP" ∨
        c = "INVALID_LOG_LEVEL")) ∧
    (∀ (body : Json) (tsOk : Bool),
      (jsTruthyOpt (body.getField "ts") && isStr (body.getField "ts")) = true →
      (jsTruthyOpt (body.getField "level") && isStr (body.getField "level")) = true →
      (jsTruthyOpt (body.getField "event") && isStr (body.getField "event")) = true →
      (jsTruthyOpt (body.getField "userAnonId") &&
        isStr (body.getField "userAnonId")) = true →
      (jsTruthyOpt (body.getField "payload") &&
        !isObjType (body.getField "payload")) = false →
      tsOk = true →
      validLevels.contains (strVal (body.getField "level")) = true →
      (strVal (body.getField "event")).length > 100 →
      logRoute body tsOk =
        .err 400 "FIELD_TOO_LONG" "event field is too long (max 100 characters)") := by
  constructor
  · intro body tsOk s c m h
    simp only [logRoute] at h
    repeat' split at h
    all_goals
      first
        | (simp only [Resp.err.injEq] at h
           obtain ⟨hs, hc, -⟩ := h
           subst hs; subst hc
           exact ⟨rfl, by decide⟩)
        | simp at h
  · intro body tsOk h₁ h₂ h₃ h₄ h₅ h₆ h₇ h₈
    simp only [logRoute, h₁, h₂, h₃, h₄, h₅, h₆, h₇, Bool.not_true,
      Bool.false_eq_true, if_false, if_pos h₈]

/-- Witness for C4's amended theorem: the `INVALID_LOG_LEVEL` rejection is
covered by the extended code set, and a 101-character `event` yields
`FIELD_TOO_LONG`. -/
theorem log_codes_amended_witness :
    ((400 : Nat) = 400 ∧
      ("INVALID_LOG_LEVEL" ∈ logClaimCodes ∨
       "INVALID_LOG_LEVEL" = "INVALID_TIMESTAMP" ∨
       "INVALID_LOG_LEVEL" = "INVALID_LOG_LEVEL")) ∧
    logRoute c4LongEventBody true =
      .err 400 "FIELD_TOO_LONG" "event field is too long (max 100 characters)" := by
  constructor
  · exact log_codes_amended.1 c4Body true 400 "INVALID_LOG_LEVEL"
      "level must be one of: debug, info, warn, error" (by rfl)
  · exact log_codes_amended.2 c4LongEventBody true (by decide) (by decide)
      (by decide) (by decide) (by decide) rfl (by decide) (by decide)

/-- Running the limiter over in-window requests with headroom allows every
request and increments the client's counter once per request, leaving the
reset time untouched. -/
theorem rlRun_in_window (client : String) (ts : List Nat) :
    ∀ (k rt : Nat) (store : String → Option RLRecord),
      store client = some ⟨k, rt⟩ → k + ts.length ≤ rlMax →
      (∀ t ∈ ts, t ≤ rt) →
      ((rlRun store client ts).2.all (fun o => o == RLOutcome.allow) = true ∧
       (rlRun store client ts).1 client = some ⟨k + ts.length, rt⟩) := by
  induction ts with
  | nil =>
    intro k rt store hs _ _
    exact ⟨rfl, by simpa [rlRun] using hs⟩
  | cons t ts ih =>
    intro k rt store hs hcap hin
    have ht : ¬ rt < t := Nat.not_lt.mpr (hin t (by simp))
    have hk : ¬ rlMax ≤ k := by
      simp only [List.length_cons] at hcap
      omega
    have hstep : rlStep store client t =
        (rlUpdate store client ⟨k + 1, rt⟩, .allow) := by
      simp [rlStep, hs, ht, hk]
    have hs' : rlUpdate store client ⟨k + 1, rt⟩ client = some ⟨k + 1, rt⟩ := by
      simp [rlUpdate]
    have hcap' : k + 1 + ts.length ≤ rlMax := by
      simp only [List.length_cons] at hcap
      omega
    have hin' : ∀ u ∈ ts, u ≤ rt := fun u hu => hin u (by simp [hu])
    obtain ⟨hall, hfin⟩ := ih (k + 1) rt _ hs' hcap' hin'
    have hrun : rlRun store client (t :: ts) =
        ((rlRun (rlUpdate store client ⟨k + 1, rt⟩) client ts).1,
         RLOutcome.allow ::
           (rlRun (rlUpdate store client ⟨k + 1, rt⟩) client ts).2) := by
      simp [rlRun, hstep]
    rw [hrun]
    refine ⟨by simpa using hall, ?_⟩
    rw [hfin]
    have : k + 1 + ts.length = k + (ts.length + 1) := by omega
    rw [this]
    simp [List.length_cons]

/-- Claim C5: with limit 100 and a 60-second window, 100 requests from one
client inside one window are all allowed (the counter reaching 100), the
101st request inside the window is rejected 429 `RATE_LIMIT_EXCEEDED` with
`retryAfter` at most 60 seconds, and any request arriving after the
client's `resetTime` is allowed with the counter reset to 1 and a fresh
window. -/
theorem rate_limiter_window (client : String)
    (store0 : String → Option RLRecord) (t0 : Nat) (ts : List Nat) (tR : Nat)
    (h0 : store0 client = none) (hlen : ts.length = 99)
    (hin : ∀ t ∈ ts, t ≤ t0 + rlWindowMs) (hlo : t0 ≤ tR)
    (hhi : tR ≤ t0 + rlWindowMs) :
    ((rlRun store0 client (t0 :: ts)).2.all
      (fun o => o == RLOutcome.allow) = true) ∧
    (∃ ra, rlStep (rlRun store0 client (t0 :: ts)).1 client tR =
        ((rlRun store0 client (t0 :: ts)).1,
         .reject 429 "RATE_LIMIT_EXCEEDED" ra) ∧ ra ≤ 60) ∧
    (∀ (store : String → Option RLRecord) (r : RLRecord) (now : Nat),
      store client = some r → r.resetTime < now →
      (rlStep store client now).2 = .allow ∧
      (rlStep store client now).1 client = some ⟨1, now + rlWindowMs⟩) := by
  have hstep0 : rlStep store0 client t0 =
      (rlUpdate store0 client ⟨1, t0 + rlWindowMs⟩, .allow) := by
    simp [rlStep, h0]
  have hs1 : rlUpdate store0 client ⟨1, t0 + rlWindowMs⟩ client =
      some ⟨1, t0 + rlWindowMs⟩ := by
    simp [rlUpdate]
  have hcap : 1 + ts.length ≤ rlMax := by
    rw [hlen]; decide
  obtain ⟨hall, hfin⟩ := rlRun_in_window client ts 1 (t0 + rlWindowMs) _ hs1 hcap hin
  have hrun : rlRun store0 client (t0 :: ts) =
      ((rlRun (rlUpdate store0 client ⟨1, t0 + rlWindowMs⟩) client ts).1,
       RLOutcome.allow ::
         (rlRun (rlUpdate store0 client ⟨1, t0 + rlWindowMs⟩) client ts).2) := by
    simp [rlRun, hstep0]
  have hfin' : (rlRun store0 client (t0 :: ts)).1 client =
      some ⟨100, t0 + rlWindowMs⟩ := by
    rw [hrun]
    simpa [hlen] using hfin
  refine ⟨by rw [hrun]; simpa using hall, ?_, ?_⟩
  · have hnot : ¬ t0 + rlWindowMs < tR := Nat.not_lt.mpr hhi
    refine ⟨(t0 + rlWindowMs - tR + 999) / 1000, ?_, ?_⟩
    · simp [rlStep, hfin', hnot, rlMax]
    · have : t0 + rlWindowMs - tR ≤ rlWindowMs := by omega
      simp only [rlWindowMs] at this ⊢
      omega
  · intro store r now hsr hlt
    constructor
    · simp [rlStep, hsr, hlt]
    · simp [rlStep, hsr, hlt, rlUpdate]

/-- Witness for C5: client `"1.2.3.4"`, an empty store, 100 requests at
time 0 inside the window, and a 101st at 30000 ms. -/
theorem rate_limiter_window_witness :
    ((fun _ : String => (none : Option RLRecord)) "1.2.3.4" = none) ∧
    (List.replicate 99 0).length = 99 ∧
    (∀ t ∈ List.replicate 99 0, t ≤ 0 + rlWindowMs) ∧
    ((rlRun (fun _ => none) "1.2.3.4" (0 :: List.replicate 99 0)).2.all
      (fun o => o == RLOutcome.allow) = true) ∧
    (∃ ra, rlStep (rlRun (fun _ => none) "1.2.3.4"
          (0 :: List.replicate 99 0)).1 "1.2.3.4" 30000 =
        ((rlRun (fun _ => none) "1.2.3.4" (0 :: List.replicate 99 0)).1,
         .reject 429 "RATE_LIMIT_EXCEEDED" ra) ∧ ra ≤ 60) ∧
    ((rlStep (fun _ => some ⟨5, 10⟩) "1.2.3.4" 11).2 = RLOutcome.allow ∧
     (rlStep (fun _ => some ⟨5, 10⟩) "1.2.3.4" 11).1 "1.2.3.4" =
       some ⟨1, 11 + rlWindowMs⟩) := by
  have hmain := rate_limiter_window "1.2.3.4" (fun _ => none) 0
    (List.replicate 99 0) 30000 rfl (by simp) (by simp [rlWindowMs])
    (by omega) (by simp [rlWindowMs])
  exact ⟨rfl, by simp, by simp [rlWindowMs], hmain.1, hmain.2.1,
    hmain.2.2 (fun _ => some ⟨5, 10⟩) ⟨5, 10⟩ 11 rfl (by decide)⟩

end Forge
